import Mathlib

/-!
Shallow embedding of the hedge orchestration engine of the
`cs-projects-backpack` trading bot (package `pkg/strategy`), together with
theorems settling the spec claims about it.

Modelling conventions:
* Go `float64` values (sizes, notional values, leverages, percentages) are
  embedded as `ℚ`.  Every comparison appearing in a claim is between values
  that are exactly representable and whose order is the same in binary64
  and in `ℚ`, so the embedding preserves the branch taken by the code.
* Go `time.Time` is embedded as `GoTime`: the calendar date (used by
  `isSameDay`) plus an absolute nanosecond counter (used by `Sub`).
* Go maps `map[string]*Position` are embedded as association lists with
  first-match lookup and insert-or-replace update.
* Venue client calls (`PlaceBTCShort`, `PlaceETHLong`, `PlaceBTCLong`,
  `PlaceETHShort`) are embedded as constructors of inductive "call" types
  recording exactly which client method the strategy invokes and with which
  arguments; the venue itself is out of scope and is modelled as succeeding.
* Returning a Go pointer to shared state is embedded by reading the current
  state through the getter: dereferencing a previously returned pointer
  after a mutation observes the mutated state, exactly as in Go.
-/

/-- Embedded `time.Time`: calendar date (as returned by `Date()`) plus an
absolute nanosecond instant (what `Sub` subtracts). -/
structure GoTime where
  year : Int
  month : Int
  day : Int
  nano : Int
deriving DecidableEq, Repr

/-- `t1.Sub(t2)` in nanoseconds. -/
def GoTime.sub (t1 t2 : GoTime) : Int := t1.nano - t2.nano

/-- `RiskAction` from `risk_manager.go`. -/
inductive RiskAction where
  | continueOpening
  | stopOpening
  | startClosing
  | emergencyClose
deriving DecidableEq, Repr

/-- `RiskAction.String()` from `risk_manager.go`. -/
def RiskAction.string : RiskAction → String
  | .continueOpening => "CONTINUE_OPENING"
  | .stopOpening => "STOP_OPENING"
  | .startClosing => "START_CLOSING"
  | .emergencyClose => "EMERGENCY_CLOSE"

/-- `Position` from `arbitrage.go`. -/
structure Position where
  Symbol : String
  Size : ℚ
  Value : ℚ
  Leverage : ℚ
deriving DecidableEq, Repr

/-- `ExchangePositions` from `arbitrage.go`; the `map[string]*Position` is an
association list with first-match lookup. -/
structure ExchangePositions where
  Exchange : String
  Positions : List (String × Position)
  Leverage : ℚ
  UpdatedAt : GoTime
deriving DecidableEq, Repr

/-- Map lookup for the embedded `map[string]*Position`. -/
def lookupPos (m : List (String × Position)) (symbol : String) : Option Position :=
  match m with
  | [] => none
  | (k, v) :: rest => if k = symbol then some v else lookupPos rest symbol

/-- Map insert-or-replace for the embedded `map[string]*Position`. -/
def setPos (m : List (String × Position)) (symbol : String) (p : Position) :
    List (String × Position) :=
  match m with
  | [] => [(symbol, p)]
  | (k, v) :: rest => if k = symbol then (symbol, p) :: rest else (k, v) :: setPos rest symbol p

/-- `DynamicHedgeConfig` from `arbitrage.go` (durations in nanoseconds). -/
structure DynamicHedgeConfig where
  OrderSize : ℚ
  MaxLeverage : ℚ
  EmergencyLeverage : ℚ
  StopDuration : Int
  MonitorInterval : Int
  SpreadPercent : ℚ
  ContinuousMode : Bool
  TradingInterval : Int
  VolumeTarget : ℚ
  MaxDailyTrades : Int
  EnableHedgeBalancing : Bool
  BalanceCheckInterval : Int
  BalanceTolerance : ℚ
  MinBalanceAdjust : ℚ
deriving DecidableEq, Repr

/-- The mutable state owned by `PositionManager` (`arbitrage.go`): the two
`*ExchangePositions` it guards with its mutex. -/
structure PMState where
  lighterPositions : ExchangePositions
  binancePositions : ExchangePositions
deriving DecidableEq, Repr

/-- `NewPositionManager` from `arbitrage.go`: empty maps, zero values for the
remaining fields. -/
def newPositionManager : PMState :=
  { lighterPositions := { Exchange := "lighter", Positions := [], Leverage := 0,
                          UpdatedAt := ⟨0, 0, 0, 0⟩ }
    binancePositions := { Exchange := "binance", Positions := [], Leverage := 0,
                          UpdatedAt := ⟨0, 0, 0, 0⟩ } }

/-- `PositionManager.GetLighterPositions` (`risk_manager.go` lines 161-166):
the Go method returns the stored `*ExchangePositions` pointer under a read
lock; dereferencing that pointer reads the current state, which is what this
function embeds. -/
def getLighterPositions (pm : PMState) : ExchangePositions := pm.lighterPositions

/-- `PositionManager.GetBinancePositions` (`risk_manager.go` lines 168-173),
same pointer-returning shape. -/
def getBinancePositions (pm : PMState) : ExchangePositions := pm.binancePositions

/-- `PositionManager.UpdateLighterPosition` (`risk_manager.go` lines 175-193):
replaces the symbol's entry in the lighter map and stamps `UpdatedAt` with
`time.Now()` (passed here as `now`). -/
def updateLighterPosition (pm : PMState) (symbol : String) (position : Position)
    (now : GoTime) : PMState :=
  { pm with lighterPositions :=
      { pm.lighterPositions with
        Positions := setPos pm.lighterPositions.Positions symbol position
        UpdatedAt := now } }

/-- `PositionManager.UpdateBinancePosition` (`risk_manager.go` lines 195-213). -/
def updateBinancePosition (pm : PMState) (symbol : String) (position : Position)
    (now : GoTime) : PMState :=
  { pm with binancePositions :=
      { pm.binancePositions with
        Positions := setPos pm.binancePositions.Positions symbol position
        UpdatedAt := now } }

/-- `RiskStatus` from `risk_manager.go`. -/
structure RiskStatus where
  Action : RiskAction
  LighterLeverage : ℚ
  BinanceLeverage : ℚ
  MaxLeverage : ℚ
  Reason : String
  Timestamp : GoTime
deriving DecidableEq, Repr

/-- `max` from `risk_manager.go` (lines 242-248): `if a > b { return a };
return b`. -/
def maxF (a b : ℚ) : ℚ := if a > b then a else b

/-- `RiskManager.shouldStartClosing` (`risk_manager.go` lines 105-110): the
body is a TODO stub that always returns `false`; the `now` argument is
ignored. -/
def shouldStartClosing (_now : GoTime) : Bool := false

/-- `RiskManager.allPositionsZero` (`risk_manager.go` lines 118-138): every
position's `Size` on both venues is zero. -/
def allPositionsZero (pm : PMState) : Bool :=
  (getLighterPositions pm).Positions.all (fun kv => kv.2.Size == 0) &&
  (getBinancePositions pm).Positions.all (fun kv => kv.2.Size == 0)

/-- `RiskManager.CheckRisk` (`risk_manager.go` lines 36-103).  The Go method
reads the position manager through its getters, writes nothing, and stamps
the returned status with `time.Now()` (the `now` argument here).  The nested
`if` reproduces the in-place override of `Action`/`Reason` performed inside
the stop-opening branch when `shouldStartClosing` holds. -/
def checkRisk (cfg : DynamicHedgeConfig) (pm : PMState) (now : GoTime) : RiskStatus :=
  let lighterLeverage := (getLighterPositions pm).Leverage
  let binanceLeverage := (getBinancePositions pm).Leverage
  let maxLeverage := maxF lighterLeverage binanceLeverage
  let base : RiskStatus :=
    { Action := .continueOpening, LighterLeverage := lighterLeverage,
      BinanceLeverage := binanceLeverage, MaxLeverage := maxLeverage,
      Reason := "", Timestamp := now }
  if maxLeverage ≥ cfg.EmergencyLeverage then
    { base with Action := .emergencyClose,
                Reason := "Leverage exceeded emergency threshold" }
  else if maxLeverage ≥ cfg.MaxLeverage then
    if shouldStartClosing now then
      { base with Action := .startClosing,
                  Reason := "Stop duration exceeded, starting to close positions" }
    else
      { base with Action := .stopOpening,
                  Reason := "Leverage exceeded max threshold" }
  else if allPositionsZero pm then
    { base with Action := .continueOpening,
                Reason := "All positions are zero, ready to open new positions" }
  else
    { base with Action := .continueOpening, Reason := "Normal trading conditions" }

/-- `PositionImbalance` from `hedge_balancer.go`. -/
structure PositionImbalance where
  Symbol : String
  LighterPosition : ℚ
  BinancePosition : ℚ
  ExpectedBalance : ℚ
  ActualImbalance : ℚ
  ImbalancePercent : ℚ
  NeedsAdjustment : Bool
  AdjustmentSide : String
  AdjustmentAmount : ℚ
deriving DecidableEq, Repr

/-- `HedgeBalancer.getPositionValue` (`hedge_balancer.go` lines 163-169):
the symbol's `Value` if present in the map, else `0`. -/
def getPositionValue (positions : ExchangePositions) (symbol : String) : ℚ :=
  match lookupPos positions.Positions symbol with
  | some pos => pos.Value
  | none => 0

/-- `HedgeBalancer.checkSymbolBalance` (`hedge_balancer.go` lines 89-161).
`tolerancePercent` and `minAdjustAmount` are the balancer's configuration
fields; the struct fields left untouched by the Go code keep their zero
values (`0` / `""` / `false`). -/
def checkSymbolBalance (tolerancePercent minAdjustAmount : ℚ) (symbol : String)
    (lighterPositions binancePositions : ExchangePositions) : PositionImbalance :=
  let lighterPos := getPositionValue lighterPositions symbol
  let binancePos := getPositionValue binancePositions symbol
  let expectedBalance := (|lighterPos| + |binancePos|) / 2
  let actualImbalance := |lighterPos| - |binancePos|
  let imbalancePercent := if expectedBalance > 0 then |actualImbalance| / expectedBalance * 100 else 0
  let needsAdjustment :=
    decide (imbalancePercent > tolerancePercent) && decide (|actualImbalance| > minAdjustAmount)
  let adjustmentAmount := if needsAdjustment then |actualImbalance| / 2 else 0
  let adjustmentSide :=
    if needsAdjustment then
      if |lighterPos| > |binancePos| then
        if symbol = "BTC" then "BINANCE_INCREASE_SHORT" else "BINANCE_INCREASE_LONG"
      else
        if symbol = "BTC" then "LIGHTER_INCREASE_LONG" else "LIGHTER_INCREASE_SHORT"
    else ""
  { Symbol := symbol, LighterPosition := lighterPos, BinancePosition := binancePos,
    ExpectedBalance := expectedBalance, ActualImbalance := actualImbalance,
    ImbalancePercent := imbalancePercent, NeedsAdjustment := needsAdjustment,
    AdjustmentSide := adjustmentSide, AdjustmentAmount := adjustmentAmount }

/-- `TradingStats` from `trading_stats.go`. -/
structure TradingStats where
  DailyVolume : ℚ
  DailyTrades : Int
  DailyStartTime : GoTime
  TotalVolume : ℚ
  TotalTrades : Int
  StartTime : GoTime
  LastTradeTime : GoTime
  CurrentPhase : String
  ActiveOrders : Int
  AvgTradeSize : ℚ
  TradeFrequency : ℚ
  VolumeProgress : ℚ
deriving DecidableEq, Repr

/-- `TradingStatsManager.isSameDay` (`trading_stats.go` lines 221-226):
compares the `(year, month, day)` triples of the two times. -/
def isSameDay (t1 t2 : GoTime) : Bool :=
  t1.year == t2.year && t1.month == t2.month && t1.day == t2.day

/-- `TradingStatsManager.resetDailyStats` (`trading_stats.go` lines 208-219). -/
def resetDailyStats (s : TradingStats) (newStartTime : GoTime) : TradingStats :=
  { s with DailyVolume := 0, DailyTrades := 0, DailyStartTime := newStartTime,
           VolumeProgress := 0 }

/-- `TradingStatsManager.RecordTrade` (`trading_stats.go` lines 55-93); `now`
is the `time.Now()` read at the top of the method, `_tradeType` is only
logged.  One hour is `3600000000000` nanoseconds. -/
def recordTrade (volume : ℚ) (_tradeType : String) (now : GoTime) (s : TradingStats) :
    TradingStats :=
  let s1 := if isSameDay now s.DailyStartTime then s else resetDailyStats s now
  let s2 := { s1 with DailyVolume := s1.DailyVolume + volume,
                      DailyTrades := s1.DailyTrades + 1,
                      TotalVolume := s1.TotalVolume + volume,
                      TotalTrades := s1.TotalTrades + 1,
                      LastTradeTime := now }
  let s3 := if s2.TotalTrades > 0 then
              { s2 with AvgTradeSize := s2.TotalVolume / (s2.TotalTrades : ℚ) }
            else s2
  let duration := now.sub s3.StartTime
  if duration > 0 then
    let hours := (duration : ℚ) / 3600000000000
    if hours > 0 then { s3 with TradeFrequency := (s3.TotalTrades : ℚ) / hours } else s3
  else s3

/-- `TradingStatsManager.ShouldPauseTradingForDay` (`trading_stats.go`
lines 166-172): `DailyTrades >= maxTrades`, with no look at the clock. -/
def shouldPauseTradingForDay (s : TradingStats) (maxTrades : Int) : Bool :=
  decide (s.DailyTrades ≥ maxTrades)

/-- `ActiveOrder` from `arbitrage.go`. -/
structure ActiveOrder where
  ID : String
  Exchange : String
  Symbol : String
  Side : String
  Size : ℚ
  Price : ℚ
  Status : String
  FilledSize : ℚ
  CreatedAt : GoTime
  UpdatedAt : GoTime
deriving DecidableEq, Repr

/-- Lookup in the embedded `map[string]*ActiveOrder` of `OrderManager`. -/
def lookupOrder (m : List (String × ActiveOrder)) (id : String) : Option ActiveOrder :=
  match m with
  | [] => none
  | (k, v) :: rest => if k = id then some v else lookupOrder rest id

/-- Remove a key from the embedded `map[string]*ActiveOrder`. -/
def removeOrderKey (m : List (String × ActiveOrder)) (id : String) :
    List (String × ActiveOrder) :=
  match m with
  | [] => []
  | (k, v) :: rest => if k = id then rest else (k, v) :: removeOrderKey rest id

/-- `OrderManager.AddOrder` (`order_monitor.go` lines 391-402): insert the
order under its ID. -/
def addOrder (m : List (String × ActiveOrder)) (order : ActiveOrder) :
    List (String × ActiveOrder) :=
  match m with
  | [] => [(order.ID, order)]
  | (k, v) :: rest => if k = order.ID then (order.ID, order) :: rest
                      else (k, v) :: addOrder rest order

/-- `OrderManager.UpdateOrderStatus` (`order_monitor.go` lines 418-433):
update status and filled size in place (stamping `UpdatedAt` with `now`),
then drop the order from the active map when it reached `FILLED` or
`CANCELLED`. -/
def updateOrderStatus (m : List (String × ActiveOrder)) (orderID status : String)
    (filledSize : ℚ) (now : GoTime) : List (String × ActiveOrder) :=
  match lookupOrder m orderID with
  | none => m
  | some order =>
      let updated := { order with Status := status, FilledSize := filledSize,
                                  UpdatedAt := now }
      if status = "FILLED" ∨ status = "CANCELLED" then removeOrderKey m orderID
      else addOrder m updated

/-- The side effect the order monitor triggers for one order when its polled
status changed (`order_monitor.go`): `fastHedge` is the
`FastExecutionManager.ExecuteFastHedge` invocation of `handleOrderFilled`
(lines 216-224), `hedgeTrade` is the `executeHedgeTrade` invocation of
`handleOrderPartialFilled` (line 275) carrying the hedge order it builds,
and `removeOrder` is the registry removal of `handleOrderCancelled`. -/
inductive MonitorAction where
  | fastHedge (orderID symbol side : String) (size price : ℚ)
  | hedgeTrade (order : ActiveOrder)
  | removeOrder (orderID : String)
deriving DecidableEq, Repr

/-- Result of one `checkOrderStatus` pass over one order: the order registry
afterwards and the hedge/cancel action triggered, if any. -/
structure MonitorResult where
  registry : List (String × ActiveOrder)
  action : Option MonitorAction
deriving DecidableEq, Repr

/-- The hedge order built by `OrderMonitor.handleOrderPartialFilled`
(`order_monitor.go` lines 264-273): `newFilledSize := order.FilledSize`
(the already-updated cumulative filled size) becomes the hedge `Size`; the
remaining fields keep Go zero values. -/
def partialHedgeOrder (order : ActiveOrder) : ActiveOrder :=
  { ID := "", Exchange := order.Exchange, Symbol := order.Symbol, Side := order.Side,
    Size := order.FilledSize, Price := 0, Status := "", FilledSize := 0,
    CreatedAt := ⟨0, 0, 0, 0⟩, UpdatedAt := ⟨0, 0, 0, 0⟩ }

/-- `OrderMonitor.checkOrderStatus` (`order_monitor.go` lines 145-187)
followed by `handleOrderStatusChange` (lines 190-201), for one order whose
venue poll returned `(newStatus, filledSize)`.  The Go code first mutates the
shared `*ActiveOrder` through `UpdateOrderStatus`, so the handlers observe
the updated `Status`/`FilledSize`; `order'` embeds that pointer view. -/
def checkOrderStatus (registry : List (String × ActiveOrder)) (order : ActiveOrder)
    (newStatus : String) (filledSize : ℚ) (now : GoTime) : MonitorResult :=
  if newStatus ≠ order.Status ∨ filledSize ≠ order.FilledSize then
    let registry' := updateOrderStatus registry order.ID newStatus filledSize now
    let order' := { order with Status := newStatus, FilledSize := filledSize,
                               UpdatedAt := now }
    if newStatus = "FILLED" then
      { registry := registry',
        action := some (.fastHedge order'.ID order'.Symbol order'.Side order'.Size order'.Price) }
    else if newStatus = "PARTIAL" then
      { registry := registry', action := some (.hedgeTrade (partialHedgeOrder order')) }
    else if newStatus = "CANCELLED" then
      { registry := removeOrderKey registry' order'.ID,
        action := some (.removeOrder order'.ID) }
    else
      { registry := registry', action := none }
  else
    { registry := registry, action := none }

/-- Extract the size of the hedge trade a monitor pass triggered through
`executeHedgeTrade`, when it triggered one. -/
def monitorHedgeSize (r : MonitorResult) : Option ℚ :=
  match r.action with
  | some (.hedgeTrade o) => some o.Size
  | _ => none

/-- Go `int64(x)` applied to a `float64`: truncation toward zero. -/
def goInt64 (q : ℚ) : Int := if 0 ≤ q then q.floor else -((-q).floor)

/-- A call into the Lighter venue client (`pkg/lighter`), as issued by the
strategy: which method, with which USDT amount and leverage. -/
inductive LighterCall where
  | placeBTCLongCall (usdtAmount : Int) (leverage : Int)
  | placeETHShortCall (usdtAmount : Int) (leverage : Int)
deriving DecidableEq, Repr

/-- `FastExecutionManager.determineHedgeSide` (`fast_execution.go`
lines 195-212): the two supported pairings map to the mirrored side; every
other combination falls through the `default` branch, logs a warning, and
returns `originalSide` unchanged ("默认同方向"). -/
def determineHedgeSide (symbol originalSide : String) : String :=
  if symbol = "BTC" ∧ originalSide = "SELL" then "BUY"
  else if symbol = "ETH" ∧ originalSide = "BUY" then "SELL"
  else originalSide

/-- `FastExecutionManager.executeLighterHedge` (`fast_execution.go`
lines 261-293): dispatch on `(Symbol, HedgeSide)` to a Lighter client call
with `usdtAmount = int64(size)` and fixed leverage 3, or the hard error of
the `default` branch.  The venue call itself is modelled as succeeding. -/
def executeLighterHedgeCall (symbol hedgeSide : String) (size : ℚ) :
    Except String LighterCall :=
  if symbol = "BTC" ∧ hedgeSide = "BUY" then
    .ok (.placeBTCLongCall (goInt64 size) 3)
  else if symbol = "ETH" ∧ hedgeSide = "SELL" then
    .ok (.placeETHShortCall (goInt64 size) 3)
  else
    .error ("unsupported Lighter hedge trading pair: " ++ symbol ++ " " ++ hedgeSide)

/-- The decision core of `FastExecutionManager.ExecuteFastHedge`
(`fast_execution.go` lines 130-193): compute the hedge side, then execute the
Lighter hedge.  `validatePrice` is a stub that always accepts, and
`executeHedgeWithRetry` retries the same deterministic call, so the
outcome is this composition: either a Lighter client call or the hard error
surfaced to the caller after retries are exhausted. -/
def fastHedgeDecision (symbol originalSide : String) (size : ℚ) :
    Except String LighterCall :=
  executeLighterHedgeCall symbol (determineHedgeSide symbol originalSide) size

/-- A call into the Binance venue client (`pkg/strategy/binance.go`), as
issued by the closing logic: which method, with which size and spread. -/
inductive BinanceCall where
  | placeBTCShortCall (size spread : ℚ)
  | placeETHLongCall (size spread : ℚ)
deriving DecidableEq, Repr

/-- The instrument the Binance client call actually trades:
`PlaceBTCShort` sells BTC, `PlaceETHLong` buys ETH. -/
def binanceCallSymbol : BinanceCall → String
  | .placeBTCShortCall _ _ => "BTC"
  | .placeETHLongCall _ _ => "ETH"

/-- `ClosingManager.placeBinanceClosingOrder` (`closing_logic.go`
lines 193-244), as the client call it issues: note that the `BTC && BUY`
case calls `PlaceETHLong` and the `ETH && SELL` case calls `PlaceBTCShort`,
exactly as the Go switch does. -/
def placeBinanceClosingOrder (symbol side : String) (size spread : ℚ) :
    Except String BinanceCall :=
  if symbol = "BTC" ∧ side = "BUY" then .ok (.placeETHLongCall size spread)
  else if symbol = "BTC" ∧ side = "SELL" then .ok (.placeBTCShortCall size spread)
  else if symbol = "ETH" ∧ side = "BUY" then .ok (.placeETHLongCall size spread)
  else if symbol = "ETH" ∧ side = "SELL" then .ok (.placeBTCShortCall size spread)
  else .error ("unsupported closing pair: " ++ symbol ++ " " ++ side)

/-- `ClosingManager.ensurePosition` (`closing_logic.go` lines 313-328):
return the existing position, or insert and return a fresh zero position. -/
def ensurePosition (positions : ExchangePositions) (symbol : String) :
    ExchangePositions × Position :=
  match lookupPos positions.Positions symbol with
  | some pos => (positions, pos)
  | none =>
      let newPos : Position := { Symbol := symbol, Size := 0, Value := 0, Leverage := 0 }
      ({ positions with Positions := setPos positions.Positions symbol newPos }, newPos)

/-- `ClosingManager.allPositionsZero` (`closing_logic.go` lines 330-347). -/
def allPositionsZeroPair (binancePos lighterPos : ExchangePositions) : Bool :=
  binancePos.Positions.all (fun kv => kv.2.Size == 0) &&
  lighterPos.Positions.all (fun kv => kv.2.Size == 0)

/-- What one closing cycle produced when it placed an order: the selected
symbol and sides, the close size, the Binance client call issued, and the
`ActiveOrder` registered in the order registry. -/
structure ClosingOutcome where
  targetSymbol : String
  binanceSide : String
  lighterSide : String
  closeSize : ℚ
  call : BinanceCall
  registered : ActiveOrder
deriving DecidableEq, Repr

/-- `ClosingManager.ExecuteClosingLogic` (`closing_logic.go` lines 32-103)
together with `executeClosingSequence` (lines 150-191).  Returns `ok none`
when all positions are already zero, `ok (some outcome)` when a maker order
was placed and registered, and `error` when order placement failed.
`orderID` stands for the ID the Binance client returned for the placed
order; `now` is the `time.Now()` used for the registered order's
timestamps. -/
def executeClosingLogic (cfg : DynamicHedgeConfig) (pm : PMState) (now : GoTime)
    (orderID : String) : Except String (Option ClosingOutcome) :=
  let binancePositions := getBinancePositions pm
  let lighterPositions := getLighterPositions pm
  if allPositionsZeroPair binancePositions lighterPositions then .ok none
  else
    let (bp1, btcPos) := ensurePosition binancePositions "BTC"
    let (_bp2, ethPos) := ensurePosition bp1 "ETH"
    let btcAbsSize := |btcPos.Size|
    let ethAbsSize := |ethPos.Size|
    let sel : String × String × String :=
      if btcAbsSize ≥ ethAbsSize then
        if btcPos.Size < 0 then ("BTC", "BUY", "SELL") else ("BTC", "SELL", "BUY")
      else
        if ethPos.Size > 0 then ("ETH", "SELL", "BUY") else ("ETH", "BUY", "SELL")
    let targetSymbol := sel.1
    let binanceSide := sel.2.1
    let lighterSide := sel.2.2
    let currentSize := if targetSymbol = "ETH" then |ethAbsSize| else |btcAbsSize|
    let closeSize := min currentSize cfg.OrderSize
    match placeBinanceClosingOrder targetSymbol binanceSide closeSize cfg.SpreadPercent with
    | .error e => .error ("failed to place Binance closing order: " ++ e)
    | .ok call =>
        let registered : ActiveOrder :=
          { ID := orderID, Exchange := "binance", Symbol := targetSymbol,
            Side := binanceSide, Size := closeSize, Price := 0, Status := "PENDING",
            FilledSize := 0, CreatedAt := now, UpdatedAt := now }
        .ok (some { targetSymbol := targetSymbol, binanceSide := binanceSide,
                    lighterSide := lighterSide, closeSize := closeSize,
                    call := call, registered := registered })

/-- The symbol the closing cycle selected, when it placed an order. -/
def closingTarget (r : Except String (Option ClosingOutcome)) : Option String :=
  match r with
  | .ok (some o) => some o.targetSymbol
  | _ => none

/-- The instrument of the Binance client call the closing cycle issued. -/
def closingCallSymbol (r : Except String (Option ClosingOutcome)) : Option String :=
  match r with
  | .ok (some o) => some (binanceCallSymbol o.call)
  | _ => none

/-- The symbol of the order the closing cycle registered in the registry. -/
def closingRegisteredSymbol (r : Except String (Option ClosingOutcome)) : Option String :=
  match r with
  | .ok (some o) => some o.registered.Symbol
  | _ => none

/-- The close size the closing cycle used. -/
def closingCloseSize (r : Except String (Option ClosingOutcome)) : Option ℚ :=
  match r with
  | .ok (some o) => some o.closeSize
  | _ => none

/-! Concrete fixtures used to evaluate the embedded operations. -/

/-- A reference instant (2024-01-01). -/
def fixTime : GoTime := ⟨2024, 1, 1, 0⟩

/-- The same calendar day as `fixTime`, five seconds later. -/
def fixTime2 : GoTime := ⟨2024, 1, 1, 5000000000⟩

/-- Twenty minutes after `fixTime`, same calendar day. -/
def fixTimeLater : GoTime := ⟨2024, 1, 1, 1200000000000⟩

/-- The calendar day after `fixTime`. -/
def fixDay2 : GoTime := ⟨2024, 1, 2, 0⟩

/-- A Binance book: short 5 BTC, long 2 ETH. -/
def fixBinancePositions : ExchangePositions :=
  ⟨"binance", [("BTC", ⟨"BTC", -5, -15000, 3⟩), ("ETH", ⟨"ETH", 2, 500, 3⟩)], 2, fixTime⟩

/-- The mirrored Lighter book: long 5 BTC, short 2 ETH. -/
def fixLighterPositions : ExchangePositions :=
  ⟨"lighter", [("BTC", ⟨"BTC", 5, 15000, 3⟩), ("ETH", ⟨"ETH", -2, -500, 3⟩)], 2, fixTime⟩

/-- Position-manager state holding the two books above. -/
def fixPM : PMState := ⟨fixLighterPositions, fixBinancePositions⟩

/-- A configuration with `OrderSize = 1`, `MaxLeverage = 3`,
`EmergencyLeverage = 5`, `StopDuration = 10` minutes, `SpreadPercent = 1`,
`MaxDailyTrades = 10`. -/
def fixCfg : DynamicHedgeConfig :=
  ⟨1, 3, 5, 600000000000, 1000000000, 1, true, 0, 0, 10, true, 0, 5, 50⟩

/-- The fixture books with the two venue leverages overridden. -/
def pmWithLeverage (l b : ℚ) : PMState :=
  ⟨{ fixLighterPositions with Leverage := l }, { fixBinancePositions with Leverage := b }⟩

/-- An active Binance maker order of size 10, already 2 filled. -/
def fixOrder : ActiveOrder := ⟨"1", "binance", "BTC", "SELL", 10, 100, "PARTIAL", 2, fixTime, fixTime⟩

/-- Trading statistics with 10 trades recorded on the day of `fixTime`. -/
def fixStats : TradingStats := ⟨0, 10, fixTime, 5000, 10, fixTime, fixTime, "OPENING", 0, 500, 0, 0⟩

/-- A BTC position used to exercise the ledger update. -/
def fixPosition : Position := ⟨"BTC", 1, 100, 3⟩

/-- Lighter book with BTC exposure 600 (the spec's imbalance scenario). -/
def fixLighter600 : ExchangePositions := ⟨"lighter", [("BTC", ⟨"BTC", 1, 600, 3⟩)], 0, fixTime⟩

/-- Binance book with BTC exposure −400 (absolute 400). -/
def fixBinance400 : ExchangePositions := ⟨"binance", [("BTC", ⟨"BTC", -1, -400, 3⟩)], 0, fixTime⟩


/-! Claim theorems. -/

/-- C1: the closing cycle selects the Binance symbol with the larger absolute
position (BTC here, |−5| > |2|), registers a BTC order of size
min(5, OrderSize) = 1 in the order registry — but the venue order it
actually places is a `PlaceETHLong` call, i.e. an order for ETH, not for the
selected symbol: the `BTC && BUY` switch case of `placeBinanceClosingOrder`
calls the ETH method, contradicting its own comment. -/
theorem C1_short_close_places_eth_order :
    closingTarget (executeClosingLogic fixCfg fixPM fixTime "42") = some "BTC" ∧
    closingRegisteredSymbol (executeClosingLogic fixCfg fixPM fixTime "42") = some "BTC" ∧
    closingCloseSize (executeClosingLogic fixCfg fixPM fixTime "42") = some 1 ∧
    closingCallSymbol (executeClosingLogic fixCfg fixPM fixTime "42") = some "ETH" := by
  decide

/-- C2: when an order of size 10 with previously recorded cumulative fill 2
is polled at cumulative fill 5 (status PARTIAL), the hedge trade the monitor
executes has size 5 — the whole cumulative filled size — not the newly
filled increment 3 = 5 − 2 that the claim (and the code's own comment)
require. -/
theorem C2_partial_hedge_uses_cumulative_fill :
    monitorHedgeSize (checkOrderStatus [("1", fixOrder)] fixOrder "PARTIAL" 5 fixTime2) =
      some 5 ∧
    monitorHedgeSize (checkOrderStatus [("1", fixOrder)] fixOrder "PARTIAL" 5 fixTime2) ≠
      some 3 := by
  decide

/-- C6 counterexample: reading the lighter positions through the getter,
updating the BTC position, and dereferencing the previously returned
pointer again observes different contents — the getter returns the live
reference, not a snapshot copy, so the claim fails at this input. -/
theorem C6_update_changes_previously_returned_positions :
    getLighterPositions (updateLighterPosition newPositionManager "BTC" fixPosition fixTime) ≠
      getLighterPositions newPositionManager := by
  decide

/-- C6 amended: `GetLighterPositions`/`GetBinancePositions` return the live
stored `ExchangePositions` under a read lock, so after
`UpdateLighterPosition`/`UpdateBinancePosition` the value observed through a
previously returned reference is exactly the updated one: the symbol's entry
replaced and `UpdatedAt` set to the update time. -/
theorem C6_getters_return_live_reference :
    ∀ (pm : PMState) (symbol : String) (position : Position) (now : GoTime),
      getLighterPositions (updateLighterPosition pm symbol position now) =
        { getLighterPositions pm with
          Positions := setPos (getLighterPositions pm).Positions symbol position
          UpdatedAt := now } ∧
      getBinancePositions (updateBinancePosition pm symbol position now) =
        { getBinancePositions pm with
          Positions := setPos (getBinancePositions pm).Positions symbol position
          UpdatedAt := now } := by
  intro pm symbol position now
  exact ⟨rfl, rfl⟩

/-- C7 counterexample: for the unsupported combinations BTC+BUY and
ETH+SELL the fast-hedge path does not return an error: `determineHedgeSide`
falls back to the original side with only a warning, and the path silently
places a same-direction Lighter trade (a BTC long, resp. an ETH short). -/
theorem C7_unsupported_pair_places_silent_trade :
    fastHedgeDecision "BTC" "BUY" 100 = Except.ok (LighterCall.placeBTCLongCall 100 3) ∧
    fastHedgeDecision "ETH" "SELL" 250 = Except.ok (LighterCall.placeETHShortCall 250 3) := by
  constructor
  · show Except.ok (LighterCall.placeBTCLongCall (goInt64 100) 3) =
      Except.ok (LighterCall.placeBTCLongCall 100 3)
    rw [show goInt64 (100 : ℚ) = 100 from by decide]
  · show Except.ok (LighterCall.placeETHShortCall (goInt64 250) 3) =
      Except.ok (LighterCall.placeETHShortCall 250 3)
    rw [show goInt64 (250 : ℚ) = 250 from by decide]

/-- C9 counterexample: two `CheckRisk` calls on identical position state and
identical thresholds but at different clock readings return different
`RiskStatus` values, because the status embeds `Timestamp = time.Now()`. -/
theorem C9_status_differs_across_clock_readings :
    checkRisk fixCfg fixPM fixTime ≠ checkRisk fixCfg fixPM fixTime2 := by
  decide

/-- C8 counterexample: a state observed after a calendar-day rollover
(current time 2024-01-02, `DailyStartTime` 2024-01-01) with 10 recorded
trades still has `ShouldPauseTradingForDay(10) = true`: the counter is not
reset by mere observation, so pausing has not lifted, contrary to the
claim. -/
theorem C8_pause_not_lifted_after_rollover :
    isSameDay fixDay2 fixStats.DailyStartTime = false ∧
    fixStats.DailyStartTime.day < fixDay2.day ∧
    shouldPauseTradingForDay fixStats 10 = true := by
  decide

/-- C3: with thresholds `MaxLeverage = 3` and `EmergencyLeverage = 5`,
`CheckRisk` returns `CONTINUE_OPENING` when the larger venue leverage is 2.9,
`STOP_OPENING` when it is 3.5 and `EMERGENCY_CLOSE` when it is 5.1; and for
any configuration and state, reaching the emergency threshold short-circuits
the remaining checks and yields `EMERGENCY_CLOSE`. -/
theorem C3_leverage_threshold_actions (cfg : DynamicHedgeConfig) (pm : PMState)
    (now : GoTime) (hmax : cfg.MaxLeverage = 3) (hem : cfg.EmergencyLeverage = 5) :
    (maxF (getLighterPositions pm).Leverage (getBinancePositions pm).Leverage = 29/10 →
      (checkRisk cfg pm now).Action = RiskAction.continueOpening) ∧
    (maxF (getLighterPositions pm).Leverage (getBinancePositions pm).Leverage = 7/2 →
      (checkRisk cfg pm now).Action = RiskAction.stopOpening) ∧
    (maxF (getLighterPositions pm).Leverage (getBinancePositions pm).Leverage = 51/10 →
      (checkRisk cfg pm now).Action = RiskAction.emergencyClose) ∧
    (∀ (cfg2 : DynamicHedgeConfig) (pm2 : PMState) (now2 : GoTime),
      maxF (getLighterPositions pm2).Leverage (getBinancePositions pm2).Leverage ≥
        cfg2.EmergencyLeverage →
      (checkRisk cfg2 pm2 now2).Action = RiskAction.emergencyClose) := by
  refine ⟨?_, ?_, ?_, ?_⟩
  · intro h
    simp only [checkRisk, shouldStartClosing, h, hmax, hem]
    norm_num
    split <;> rfl
  · intro h
    simp only [checkRisk, shouldStartClosing, h, hmax, hem]
    norm_num
  · intro h
    simp only [checkRisk, shouldStartClosing, h, hmax, hem]
    norm_num
  · intro cfg2 pm2 now2 h
    unfold checkRisk
    rw [if_pos h]

/-- C3 witness: the three threshold scenarios evaluated on the fixture
configuration (thresholds 3 and 5) at concrete venue leverages 2.9, 3.5
and 5.1. -/
theorem C3_leverage_threshold_actions_witness :
    (checkRisk fixCfg (pmWithLeverage (29/10) 1) fixTime).Action =
      RiskAction.continueOpening ∧
    (checkRisk fixCfg (pmWithLeverage (7/2) 1) fixTime).Action =
      RiskAction.stopOpening ∧
    (checkRisk fixCfg (pmWithLeverage (51/10) 1) fixTime).Action =
      RiskAction.emergencyClose :=
  ⟨(C3_leverage_threshold_actions fixCfg (pmWithLeverage (29/10) 1) fixTime rfl rfl).1
      (by norm_num [maxF, pmWithLeverage, getLighterPositions, getBinancePositions,
        fixLighterPositions, fixBinancePositions]),
   (C3_leverage_threshold_actions fixCfg (pmWithLeverage (7/2) 1) fixTime rfl rfl).2.1
      (by norm_num [maxF, pmWithLeverage, getLighterPositions, getBinancePositions,
        fixLighterPositions, fixBinancePositions]),
   (C3_leverage_threshold_actions fixCfg (pmWithLeverage (51/10) 1) fixTime rfl rfl).2.2.1
      (by norm_num [maxF, pmWithLeverage, getLighterPositions, getBinancePositions,
        fixLighterPositions, fixBinancePositions])⟩

/-- C4: in a state with venue leverage 4 (at or above `MaxLeverage = 3`,
below `EmergencyLeverage = 5`) observed twenty minutes after opening was
last stopped at `fixTime` (so the configured 10-minute stop-duration has
elapsed), `CheckRisk` still returns `STOP_OPENING`; indeed
`shouldStartClosing` is a stub that always returns `false`, so no state at
all makes `CheckRisk` return `START_CLOSING`. -/
theorem C4_stop_duration_stub_never_escalates :
    fixTimeLater.sub fixTime ≥ fixCfg.StopDuration ∧
    fixCfg.MaxLeverage ≤
      maxF (getLighterPositions (pmWithLeverage 4 1)).Leverage
        (getBinancePositions (pmWithLeverage 4 1)).Leverage ∧
    maxF (getLighterPositions (pmWithLeverage 4 1)).Leverage
        (getBinancePositions (pmWithLeverage 4 1)).Leverage < fixCfg.EmergencyLeverage ∧
    (checkRisk fixCfg (pmWithLeverage 4 1) fixTimeLater).Action = RiskAction.stopOpening ∧
    ∀ (cfg : DynamicHedgeConfig) (pm : PMState) (now : GoTime),
      (checkRisk cfg pm now).Action ≠ RiskAction.startClosing := by
  refine ⟨by decide, by decide, by decide, by decide, ?_⟩
  intro cfg pm now
  simp only [checkRisk, shouldStartClosing]
  split_ifs <;> simp_all

/-- C4 witness: the unreachability of `START_CLOSING` instantiated at the
fixture configuration and state. -/
theorem C4_stop_duration_stub_never_escalates_witness :
    (checkRisk fixCfg (pmWithLeverage 4 1) fixTimeLater).Action ≠
      RiskAction.startClosing :=
  C4_stop_duration_stub_never_escalates.2.2.2.2 fixCfg (pmWithLeverage 4 1) fixTimeLater

/-- C5: for every pair of per-symbol venue exposures A (Lighter) and B
(Binance), `checkSymbolBalance` computes
`ExpectedBalance = (|A| + |B|) / 2`, `ActualImbalance = |A| − |B|`,
`ImbalancePercent = |delta| / expectedBalance * 100`, sets `NeedsAdjustment`
exactly when the percentage exceeds the tolerance and `|delta|` exceeds the
minimum adjustment, and in that case `AdjustmentAmount = |delta| / 2`
(otherwise 0); and in the concrete scenario A = 600, B = −400, tolerance 5,
minimum 50 it yields 500, 200, 40 %, true and 100. -/
theorem C5_imbalance_computation :
    (∀ (tol minAdj : ℚ) (symbol : String) (lp bp : ExchangePositions),
      (checkSymbolBalance tol minAdj symbol lp bp).ExpectedBalance =
        (|getPositionValue lp symbol| + |getPositionValue bp symbol|) / 2 ∧
      (checkSymbolBalance tol minAdj symbol lp bp).ActualImbalance =
        |getPositionValue lp symbol| - |getPositionValue bp symbol| ∧
      (checkSymbolBalance tol minAdj symbol lp bp).ImbalancePercent =
        |(checkSymbolBalance tol minAdj symbol lp bp).ActualImbalance| /
          (checkSymbolBalance tol minAdj symbol lp bp).ExpectedBalance * 100 ∧
      (checkSymbolBalance tol minAdj symbol lp bp).NeedsAdjustment =
        (decide ((checkSymbolBalance tol minAdj symbol lp bp).ImbalancePercent > tol) &&
          decide (|(checkSymbolBalance tol minAdj symbol lp bp).ActualImbalance| > minAdj)) ∧
      (checkSymbolBalance tol minAdj symbol lp bp).AdjustmentAmount =
        (if (checkSymbolBalance tol minAdj symbol lp bp).NeedsAdjustment then
          |(checkSymbolBalance tol minAdj symbol lp bp).ActualImbalance| / 2 else 0)) ∧
    ((checkSymbolBalance 5 50 "BTC" fixLighter600 fixBinance400).ExpectedBalance = 500 ∧
      (checkSymbolBalance 5 50 "BTC" fixLighter600 fixBinance400).ActualImbalance = 200 ∧
      (checkSymbolBalance 5 50 "BTC" fixLighter600 fixBinance400).ImbalancePercent = 40 ∧
      (checkSymbolBalance 5 50 "BTC" fixLighter600 fixBinance400).NeedsAdjustment = true ∧
      (checkSymbolBalance 5 50 "BTC" fixLighter600 fixBinance400).AdjustmentAmount = 100) := by
  have huniv : ∀ (tol minAdj : ℚ) (symbol : String) (lp bp : ExchangePositions),
      (checkSymbolBalance tol minAdj symbol lp bp).ExpectedBalance =
        (|getPositionValue lp symbol| + |getPositionValue bp symbol|) / 2 ∧
      (checkSymbolBalance tol minAdj symbol lp bp).ActualImbalance =
        |getPositionValue lp symbol| - |getPositionValue bp symbol| ∧
      (checkSymbolBalance tol minAdj symbol lp bp).ImbalancePercent =
        |(checkSymbolBalance tol minAdj symbol lp bp).ActualImbalance| /
          (checkSymbolBalance tol minAdj symbol lp bp).ExpectedBalance * 100 ∧
      (checkSymbolBalance tol minAdj symbol lp bp).NeedsAdjustment =
        (decide ((checkSymbolBalance tol minAdj symbol lp bp).ImbalancePercent > tol) &&
          decide (|(checkSymbolBalance tol minAdj symbol lp bp).ActualImbalance| > minAdj)) ∧
      (checkSymbolBalance tol minAdj symbol lp bp).AdjustmentAmount =
        (if (checkSymbolBalance tol minAdj symbol lp bp).NeedsAdjustment then
          |(checkSymbolBalance tol minAdj symbol lp bp).ActualImbalance| / 2 else 0) := by
    intro tol minAdj symbol lp bp
    refine ⟨rfl, rfl, ?_, rfl, rfl⟩
    simp only [checkSymbolBalance]
    split_ifs with hpos
    · rfl
    · have hA := abs_nonneg (getPositionValue lp symbol)
      have hB := abs_nonneg (getPositionValue bp symbol)
      have hA0 : |getPositionValue lp symbol| = 0 := by
        rw [not_lt] at hpos
        linarith
      have hB0 : |getPositionValue bp symbol| = 0 := by
        rw [not_lt] at hpos
        linarith
      rw [hA0, hB0]
      norm_num
  refine ⟨huniv, ?_⟩
  obtain ⟨h1, h2, h3, h4, h5⟩ := huniv 5 50 "BTC" fixLighter600 fixBinance400
  have hA : getPositionValue fixLighter600 "BTC" = 600 := rfl
  have hB : getPositionValue fixBinance400 "BTC" = -400 := rfl
  rw [hA, hB] at h1 h2
  norm_num at h1 h2
  have h3v : (checkSymbolBalance 5 50 "BTC" fixLighter600 fixBinance400).ImbalancePercent
      = 40 := by
    rw [h3, h2, h1]
    norm_num
  have h4v : (checkSymbolBalance 5 50 "BTC" fixLighter600 fixBinance400).NeedsAdjustment
      = true := by
    rw [h4, h3v, h2]
    norm_num
  have h5v : (checkSymbolBalance 5 50 "BTC" fixLighter600 fixBinance400).AdjustmentAmount
      = 100 := by
    rw [h5, h4v, h2]
    norm_num
  exact ⟨h1, h2, h3v, h4v, h5v⟩

/-- C7 amended: when `(symbol, side)` is not a supported hedge pairing
(BTC+SELL or ETH+BUY), the fast-hedge path returns a hard error only for
combinations that reach the dispatch's `default` branch; for BTC+BUY it
silently places a BTC long and for ETH+SELL an ETH short, because
`determineHedgeSide` falls back to the original side instead of failing. -/
theorem C7_hedge_side_fallback (symbol side : String) (size : ℚ)
    (h : ¬((symbol = "BTC" ∧ side = "SELL") ∨ (symbol = "ETH" ∧ side = "BUY"))) :
    fastHedgeDecision symbol side size =
      if symbol = "BTC" ∧ side = "BUY" then
        Except.ok (LighterCall.placeBTCLongCall (goInt64 size) 3)
      else if symbol = "ETH" ∧ side = "SELL" then
        Except.ok (LighterCall.placeETHShortCall (goInt64 size) 3)
      else
        Except.error ("unsupported Lighter hedge trading pair: " ++ symbol ++ " " ++ side) := by
  unfold fastHedgeDecision determineHedgeSide executeLighterHedgeCall
  by_cases hb : symbol = "BTC" <;> by_cases he : symbol = "ETH" <;>
    by_cases hs : side = "SELL" <;> by_cases hy : side = "BUY" <;>
    simp_all

/-- C7 witness: an unsupported symbol (`SOL`) does surface the hard error. -/
theorem C7_hedge_side_fallback_witness :
    fastHedgeDecision "SOL" "BUY" 100 =
      Except.error "unsupported Lighter hedge trading pair: SOL BUY" := by
  rw [C7_hedge_side_fallback "SOL" "BUY" 100 (by decide)]
  rfl

/-- C8 amended: with `maxDailyTrades` reached, `ShouldPauseTradingForDay` is
true; the daily counter is reset only lazily, by the next `RecordTrade` call
after the calendar-day rollover (that call then records itself, leaving the
counter at 1, which lifts the pause for any limit above 1);
`ShouldPauseTradingForDay` itself never consults the clock, so mere
observation after the rollover does not lift the pause. -/
theorem C8_daily_reset_only_on_next_record (s : TradingStats) (m : Int) (v : ℚ)
    (ty : String) (now : GoTime) :
    (s.DailyTrades ≥ m → shouldPauseTradingForDay s m = true) ∧
    (isSameDay now s.DailyStartTime = true →
      (recordTrade v ty now s).DailyTrades = s.DailyTrades + 1) ∧
    (isSameDay now s.DailyStartTime = false →
      (recordTrade v ty now s).DailyTrades = 1 ∧
      (recordTrade v ty now s).DailyStartTime = now ∧
      ∀ m2 : Int, 1 < m2 → shouldPauseTradingForDay (recordTrade v ty now s) m2 = false) := by
  refine ⟨?_, ?_, ?_⟩
  · intro hge
    simp [shouldPauseTradingForDay, hge]
  · intro hsame
    simp only [recordTrade, hsame, if_true]
    split_ifs <;> simp_all
  · intro hdiff
    have hd : (recordTrade v ty now s).DailyTrades = 1 := by
      simp only [recordTrade, hdiff, resetDailyStats]
      split_ifs <;> simp_all
    have hstart : (recordTrade v ty now s).DailyStartTime = now := by
      simp only [recordTrade, hdiff, resetDailyStats]
      split_ifs <;> simp_all
    refine ⟨hd, hstart, ?_⟩
    intro m2 hm2
    simp only [shouldPauseTradingForDay, hd]
    simp only [decide_eq_false_iff_not]
    omega

/-- C8 witness: the fixture state with 10 trades pauses at limit 10; recording
a trade on the next calendar day resets and lifts the pause. -/
theorem C8_daily_reset_only_on_next_record_witness :
    shouldPauseTradingForDay fixStats 10 = true ∧
    (recordTrade 100 "OPENING" fixDay2 fixStats).DailyTrades = 1 ∧
    (recordTrade 100 "OPENING" fixDay2 fixStats).DailyStartTime = fixDay2 ∧
    shouldPauseTradingForDay (recordTrade 100 "OPENING" fixDay2 fixStats) 10 = false := by
  have h := C8_daily_reset_only_on_next_record fixStats 10 100 "OPENING" fixDay2
  have h3 := h.2.2 (by decide)
  exact ⟨h.1 (by decide), h3.1, h3.2.1, h3.2.2 10 (by decide)⟩

/-- C9 amended: `CheckRisk` is a pure read of the position state and the
configuration up to the `Timestamp` field: two calls on identical position
state and identical thresholds agree on `Action`, both venue leverages,
`MaxLeverage` and `Reason`, whatever the two clock readings are (and the
embedding is a function of its inputs, performing no write to the ledger or
the configuration, as the Go method contains none). -/
theorem C9_risk_check_pure_up_to_timestamp (cfg : DynamicHedgeConfig) (pm : PMState)
    (t1 t2 : GoTime) :
    (checkRisk cfg pm t1).Action = (checkRisk cfg pm t2).Action ∧
    (checkRisk cfg pm t1).LighterLeverage = (checkRisk cfg pm t2).LighterLeverage ∧
    (checkRisk cfg pm t1).BinanceLeverage = (checkRisk cfg pm t2).BinanceLeverage ∧
    (checkRisk cfg pm t1).MaxLeverage = (checkRisk cfg pm t2).MaxLeverage ∧
    (checkRisk cfg pm t1).Reason = (checkRisk cfg pm t2).Reason := by
  simp only [checkRisk, shouldStartClosing]
  split_ifs <;> simp_all

/-- C10: for a symbol whose exposure is zero on both venues (whether stored
as zero or absent from the maps, both of which make `getPositionValue`
return 0), `checkSymbolBalance` leaves `ImbalancePercent` at 0 (the division
is guarded by `expectedBalance > 0`) and `NeedsAdjustment` false, for any
tolerance and any non-negative minimum adjustment amount (the balancer's
default is 50 and the strategy only overwrites it with positive values). -/
theorem C10_flat_book_no_adjustment (tol minAdj : ℚ) (symbol : String)
    (lp bp : ExchangePositions) (hmin : 0 ≤ minAdj)
    (hl : getPositionValue lp symbol = 0) (hb : getPositionValue bp symbol = 0) :
    (checkSymbolBalance tol minAdj symbol lp bp).ImbalancePercent = 0 ∧
    (checkSymbolBalance tol minAdj symbol lp bp).NeedsAdjustment = false := by
  have h2 : ¬ (0 : ℚ) > minAdj := not_lt.mpr hmin
  simp only [checkSymbolBalance, hl, hb]
  norm_num [h2]

/-- C10 witness: the freshly constructed position manager has empty maps, so
BTC is flat on both venues and no adjustment is flagged. -/
theorem C10_flat_book_no_adjustment_witness :
    (checkSymbolBalance 5 50 "BTC" (getLighterPositions newPositionManager)
      (getBinancePositions newPositionManager)).ImbalancePercent = 0 ∧
    (checkSymbolBalance 5 50 "BTC" (getLighterPositions newPositionManager)
      (getBinancePositions newPositionManager)).NeedsAdjustment = false :=
  C10_flat_book_no_adjustment 5 50 "BTC" _ _ (by norm_num) rfl rfl
